import Mathlib

/-!
Shallow embedding of the forecasting and tax-simulation engine of the
`finances` dashboard (`views/advanced_forecast.py`, plus the ledger-state
helpers of `beancount_utils.py`).

Python floats are modelled as rational numbers (`ℚ`): the engine's
arithmetic is +, -, *, / and comparisons, all of which are exact here.
The only operation that leaves `ℚ` is the float power `x ** q` with a
fractional exponent (`(1+r) ** (month/12)` and `(f/i) ** (1/years)`).
That power is abstracted as an explicit function parameter
`fpow : ℚ → ℚ → ℚ`; theorems that need a property of it (such as
`fpow x 0 = 1`, true of the real power) take that property as a
hypothesis, and witnesses instantiate `fpow` with the computable
`fpowDefault` below.  `float('inf')`, which appears only as the upper
bound of the top federal bracket, is modelled by `Option ℚ` with `none`
standing for the infinite bound.
-/

/-- Federal bracket list entry: `(marginal_rate, cumulative_upper_bound)`;
`none` as the bound models the source's `float('inf')`. -/
abbrev FedBracket : Type := ℚ × Option ℚ

/-- Embedding of the dataclass `TaxRates` of `views/advanced_forecast.py`. -/
structure TaxRates where
  federal_brackets : List FedBracket
  state_rate : ℚ
  fica_rate : ℚ
  ltcg_rate : ℚ
  stcg_rate : ℚ
deriving Repr

/-- Embedding of `TaxRates.get_2025_married_joint`; the float literals
`0.10`, `0.12`, ... become the exact rationals they denote in the source text. -/
def get_2025_married_joint : TaxRates :=
  { federal_brackets :=
      [(10/100, some 23200), (12/100, some 94300), (22/100, some 201050),
       (24/100, some 383900), (32/100, some 487450), (35/100, some 731200),
       (37/100, none)],
    state_rate := 93/1000,
    fica_rate := 765/10000,
    ltcg_rate := 15/100,
    stcg_rate := 0 }

/-- Loop body chain of `_calculate_progressive_tax`: walks the bracket list
carrying `prev_threshold` and the accumulated `tax`.  The source's
`for rate, threshold in brackets` loop with its two `break`s becomes this
recursion: `income <= prev_threshold` stops, a `min(income, threshold)`
slice is taxed, and `income <= threshold` stops after advancing
`prev_threshold = threshold` (an infinite bound always stops, as
`income <= inf` holds for every float). -/
def progressiveTaxGo (income : ℚ) : ℚ → ℚ → List FedBracket → ℚ
  | _prev, tax, [] => tax
  | prev, tax, (rate, threshold) :: rest =>
    if income ≤ prev then tax
    else
      match threshold with
      | none => tax + (income - prev) * rate
      | some t =>
        let tax' := tax + (min income t - prev) * rate
        if income ≤ t then tax' else progressiveTaxGo income t tax' rest

/-- Embedding of `_calculate_progressive_tax(income, brackets)`. -/
def calculate_progressive_tax (income : ℚ) (brackets : List FedBracket) : ℚ :=
  if income ≤ 0 then 0 else progressiveTaxGo income 0 0 brackets

/-- Embedding of `_get_marginal_rate(income, brackets)`: first bracket whose
bound is at least `income`, falling back on `brackets[-1][0]`.  The result is
`none` exactly when the list is empty, where the source raises `IndexError`
on `brackets[-1]`. -/
def get_marginal_rate (income : ℚ) (brackets : List FedBracket) : Option ℚ :=
  match brackets.find? (fun rt =>
      match rt.2 with
      | none => true
      | some t => decide (income ≤ t)) with
  | some rt => some rt.1
  | none => (brackets.getLast?).map (fun rt => rt.1)

/-- Result dictionary of `calculate_taxes`.  `marginal_rate` is `Option`-valued
because the source raises on an empty bracket list (see `get_marginal_rate`);
every other field is as in the source. -/
structure TaxBreakdown where
  federal_tax : ℚ
  state_tax : ℚ
  fica_tax : ℚ
  investment_tax : ℚ
  total_tax : ℚ
  effective_rate : ℚ
  marginal_rate : Option ℚ
deriving Repr

/-- Embedding of `calculate_taxes(gross_income, investment_gains, tax_rates,
tax_advantaged_contrib)`. -/
def calculate_taxes (gross_income investment_gains : ℚ) (tax_rates : TaxRates)
    (tax_advantaged_contrib : ℚ) : TaxBreakdown :=
  let taxable_income := max 0 (gross_income - tax_advantaged_contrib)
  let federal_tax := calculate_progressive_tax taxable_income tax_rates.federal_brackets
  let state_tax := taxable_income * tax_rates.state_rate
  let fica_tax := gross_income * tax_rates.fica_rate
  let ltcg_tax := investment_gains * tax_rates.ltcg_rate
  let total_tax := federal_tax + state_tax + fica_tax + ltcg_tax
  { federal_tax := federal_tax,
    state_tax := state_tax,
    fica_tax := fica_tax,
    investment_tax := ltcg_tax,
    total_tax := total_tax,
    effective_rate := total_tax / max gross_income 1,
    marginal_rate :=
      (get_marginal_rate taxable_income tax_rates.federal_brackets).map
        (fun r => r + tax_rates.state_rate) }

/-- Well-formedness of a bracket list, from `prev` on: every finite bound is
at least the running lower bound ("brackets sorted ascending by bound").
Nothing is required past an infinite bound, which always ends the walk. -/
def chainFromB : ℚ → List FedBracket → Bool
  | _, [] => true
  | prev, (_, some t) :: rest => decide (prev ≤ t) && chainFromB t rest
  | _, (_, none) :: _ => true

/-- All federal marginal rates lie in `[0, 1]`. -/
def ratesInUnitB (brackets : List FedBracket) : Bool :=
  brackets.all (fun rt => decide (0 ≤ rt.1) && decide (rt.1 ≤ 1))

/-- Last federal bracket has the infinite upper bound. -/
def lastBoundInfB (brackets : List FedBracket) : Bool :=
  match brackets.getLast? with
  | some (_, none) => true
  | _ => false

/-- Marginal-slice reading of a progressive schedule, written from the spec's
description: each bracket taxes, at its own rate, the part of the income lying
between the previous bound and its own bound (clamped below at 0); brackets
beyond an infinite bound contribute nothing. -/
def bracketSliceSum (income : ℚ) : ℚ → List FedBracket → ℚ
  | _prev, [] => 0
  | prev, (rate, none) :: _rest => rate * max 0 (income - prev)
  | prev, (rate, some t) :: rest =>
      rate * max 0 (min income t - prev) + bracketSliceSum income t rest

/-- Embedding of the enum `ScenarioType`. -/
inductive ScenarioType where
  | custom | home_purchase | investment_growth | emergency_fund | retirement
  | career_change | education | business_start | debt_payoff
deriving Repr, DecidableEq

/-- Embedding of the dataclass `IncomeProjection`.  `bonus_frequency` is a
Python `int`, hence `ℤ`. -/
structure IncomeProjection where
  base_salary : ℚ
  salary_growth_rate : ℚ
  bonus_amount : ℚ
  bonus_frequency : ℤ
  investment_income : ℚ
  other_income : ℚ
  income_volatility : ℚ
deriving Repr

/-- Embedding of the dataclass `ExpenseProjection`.  Python dicts become
association lists in insertion order; dict keys are unique, so `dictGet`
(first match) is dict lookup. -/
structure ExpenseProjection where
  base_expenses : List (String × ℚ)
  expense_growth_rate : ℚ
  variable_expenses : List (String × ℚ)
  seasonal_adjustments : List (String × List (ℕ × ℚ))
deriving Repr

/-- Embedding of the dataclass `InvestmentProjection`. -/
structure InvestmentProjection where
  expected_return : ℚ
  volatility : ℚ
  rebalancing_frequency : ℕ
  asset_allocation : List (String × ℚ)
  contribution_schedule : List (String × ℚ)
deriving Repr

/-- Embedding of the dataclass `LoanProjection`. -/
structure LoanProjection where
  principal : ℚ
  interest_rate : ℚ
  term_months : ℕ
  extra_payments : ℚ
deriving Repr

/-- Embedding of the dataclass `ScenarioParameters`.  One-time events are
`(month, amount, description)` triples. -/
structure ScenarioParameters where
  scenario_type : ScenarioType
  time_horizon_years : ℕ
  income : IncomeProjection
  expenses : ExpenseProjection
  investments : InvestmentProjection
  loans : List LoanProjection
  tax_rates : TaxRates
  tax_advantaged_accounts : List (String × ℚ)
  major_purchases : List (ℕ × ℚ × String)
  windfalls : List (ℕ × ℚ × String)
deriving Repr

/-- One row of the `projections` list built by `forecast_scenario` (the
`date` column, unused by any computation, is omitted). -/
structure MonthRecord where
  month : ℕ
  year : ℚ
  gross_income : ℚ
  expenses : ℚ
  taxes : ℚ
  net_cash_flow : ℚ
  investment_growth : ℚ
  net_worth : ℚ
  one_time_events : ℚ
deriving Repr

instance : Inhabited MonthRecord :=
  ⟨{ month := 0, year := 0, gross_income := 0, expenses := 0, taxes := 0,
     net_cash_flow := 0, investment_growth := 0, net_worth := 0, one_time_events := 0 }⟩

/-- Dictionary lookup on an association list: Python's `d[k]` / `k in d` /
`d.get(k, default)` (dict keys are unique, so first match is the match). -/
def dictGet {κ α : Type} [DecidableEq κ] : List (κ × α) → κ → Option α
  | [], _ => none
  | kv :: rest, key => if kv.1 = key then some kv.2 else dictGet rest key

/-- Seasonal multiplier for a category and calendar month:
`seasonal_adjustments[category].get(month_of_year, 1.0)` when the category is
configured, `1.0` (no adjustment) otherwise. -/
def seasonalMult (sa : List (String × List (ℕ × ℚ))) (cat : String) (moy : ℕ) : ℚ :=
  match dictGet sa cat with
  | some m => (dictGet m moy).getD 1
  | none => 1

/-- Bonus-month test `month % (12 // bonus_frequency) == 0` of
`forecast_scenario`.  `Int.fdiv` / `Int.fmod` are Python's floor `//` and
sign-follows-divisor `%`.  The source raises `ZeroDivisionError` when
`bonus_frequency == 0` (at `12 // 0`) or when `12 // bonus_frequency == 0`
(at `month % 0`, i.e. when `bonus_frequency > 12`); this total model returns
`false` there, and `bonusCondEval` below models the partiality itself. -/
def bonusHits (bf : ℤ) (month : ℕ) : Bool :=
  let d := Int.fdiv 12 bf
  decide (d ≠ 0) && decide (Int.fmod (month : ℤ) d = 0)

/-- Partiality model of the inner expression
`month % (12 // bonus_frequency) == 0`: `none` marks the two
`ZeroDivisionError` sites. -/
def bonusModCheck (month : ℕ) (bf : ℤ) : Option Bool :=
  if bf = 0 then none
  else
    let d := Int.fdiv 12 bf
    if d = 0 then none
    else some (decide (Int.fmod (month : ℤ) d = 0))

/-- Partiality model of the whole condition
`month > 0 and month % (12 // bonus_frequency) == 0`: Python's `and`
short-circuits, so at month 0 the division is never evaluated. -/
def bonusCondEval (month : ℕ) (bf : ℤ) : Option Bool :=
  if 0 < month then bonusModCheck month bf else some false

/-- Monthly gross income of `forecast_scenario`:
`(base_salary/12) * (1+growth) ** (month/12) + other_income/12`, plus
`bonus_amount / bonus_frequency` in bonus months (months > 0 only). -/
def monthlyIncome (fpow : ℚ → ℚ → ℚ) (inc : IncomeProjection) (month : ℕ) : ℚ :=
  let base := inc.base_salary / 12 * fpow (1 + inc.salary_growth_rate) ((month : ℚ) / 12)
      + inc.other_income / 12
  if 0 < month ∧ bonusHits inc.bonus_frequency month = true then
    base + inc.bonus_amount / (inc.bonus_frequency : ℚ)
  else base

/-- Monthly expenses of `forecast_scenario`: per category,
`base_amount * (1+inflation) ** (month/12)`, multiplied by the seasonal
multiplier when the category has seasonal adjustments (`month_of_year` is the
source's `(month % 12) + 1`).  The explicit `match` mirrors the source's
`if category in seasonal_adjustments` guard; the absent-category branch equals
multiplying by the default multiplier 1. -/
def monthExpenses (fpow : ℚ → ℚ → ℚ) (e : ExpenseProjection) (month : ℕ) : ℚ :=
  let month_of_year := month % 12 + 1
  (e.base_expenses.map (fun cb =>
    let inflated := cb.2 * fpow (1 + e.expense_growth_rate) ((month : ℚ) / 12)
    match dictGet e.seasonal_adjustments cb.1 with
    | some m => inflated * ((dictGet m month_of_year).getD 1)
    | none => inflated)).sum

/-- Monthly taxes of `forecast_scenario`: annualize one month's income, tax
it with `calculate_taxes` (contribution argument left at its default 0), and
divide the total back by 12. -/
def monthlyTaxes (tax_rates : TaxRates) (monthly_income : ℚ) : ℚ :=
  (calculate_taxes (monthly_income * 12) 0 tax_rates 0).total_tax / 12

/-- One-time events hitting a given month: windfall amounts added, major
purchase amounts subtracted. -/
def oneTimeNet (major_purchases windfalls : List (ℕ × ℚ × String)) (month : ℕ) : ℚ :=
  ((windfalls.filter (fun ev => ev.1 = month)).map (fun ev => ev.2.1)).sum
    - ((major_purchases.filter (fun ev => ev.1 = month)).map (fun ev => ev.2.1)).sum

/-- One iteration of the `for month in range(months + 1)` loop of
`forecast_scenario`, as a pure function of the month index and the incoming
net worth: net worth is updated by `net_cash_flow + investment_growth` for
months > 0 and left unchanged at month 0, and the emitted row carries the
updated value. -/
def recordAt (fpow : ℚ → ℚ → ℚ) (p : ScenarioParameters) (month : ℕ) (nw : ℚ) : MonthRecord :=
  let monthly_income := monthlyIncome fpow p.income month
  let monthly_expenses := monthExpenses fpow p.expenses month
  let monthly_taxes := monthlyTaxes p.tax_rates monthly_income
  let monthly_return := fpow (1 + p.investments.expected_return) (1 / 12) - 1
  let investment_growth := nw * monthly_return
  let one_time_events := oneTimeNet p.major_purchases p.windfalls month
  let net_cash_flow := monthly_income - monthly_expenses - monthly_taxes + one_time_events
  let net_worth := if 0 < month then nw + (net_cash_flow + investment_growth) else nw
  { month := month, year := (month : ℚ) / 12, gross_income := monthly_income,
    expenses := monthly_expenses, taxes := monthly_taxes,
    net_cash_flow := net_cash_flow, investment_growth := investment_growth,
    net_worth := net_worth, one_time_events := one_time_events }

/-- Rows for months `start, start+1, ..., start+k-1`, threading the running
net worth exactly as the source loop does. -/
def projectionsFrom (fpow : ℚ → ℚ → ℚ) (p : ScenarioParameters) :
    ℕ → ℚ → ℕ → List MonthRecord
  | _start, _nw, 0 => []
  | start, nw, k + 1 =>
    let r := recordAt fpow p start nw
    r :: projectionsFrom fpow p (start + 1) r.net_worth k

/-- The `projections` list of `forecast_scenario`: months 0 through
`time_horizon_years * 12` inclusive, starting from the snapshot net worth. -/
def monthly_projections (fpow : ℚ → ℚ → ℚ) (p : ScenarioParameters) (initial_nw : ℚ) :
    List MonthRecord :=
  projectionsFrom fpow p 0 initial_nw (p.time_horizon_years * 12 + 1)

/-- The metric `final_net_worth = projections_df.iloc[-1]["net_worth"]`
(the projection list is never empty; the default 0 is dead). -/
def final_net_worth (fpow : ℚ → ℚ → ℚ) (p : ScenarioParameters) (initial_nw : ℚ) : ℚ :=
  (((monthly_projections fpow p initial_nw).getLast?).map (fun r => r.net_worth)).getD 0

/-- The metric `total_growth = final_net_worth - current net worth`. -/
def total_growth (fpow : ℚ → ℚ → ℚ) (p : ScenarioParameters) (initial_nw : ℚ) : ℚ :=
  final_net_worth fpow p initial_nw - initial_nw

/-- The metric `annualized_return`: the source computes
`((final / initial) ** (1 / years) - 1) * 100` when the current net worth is
positive and 0 otherwise.  (With `time_horizon_years = 0` and a positive
initial net worth the source would raise `ZeroDivisionError` at `1 / years`;
`ℚ` division by zero silently yields 0 here.) -/
def annualized_return (fpow : ℚ → ℚ → ℚ) (p : ScenarioParameters) (initial_nw : ℚ) : ℚ :=
  if 0 < initial_nw then
    (fpow (final_net_worth fpow p initial_nw / initial_nw)
        (1 / (p.time_horizon_years : ℚ)) - 1) * 100
  else 0

/-- Embedding of `_calculate_break_even_years`: scan the monthly rows in
order and return the (fractional) `year` of the first row whose net worth is
at least the initial net worth; `none` when no row qualifies. -/
def calculate_break_even_years (records : List MonthRecord) (initial_nw : ℚ) : Option ℚ :=
  (records.find? (fun r => decide (initial_nw ≤ r.net_worth))).map (fun r => r.year)

/-- The metric `years_to_break_even`: computed only when `total_growth < 0`,
`None` otherwise. -/
def years_to_break_even (fpow : ℚ → ℚ → ℚ) (p : ScenarioParameters) (initial_nw : ℚ) :
    Option ℚ :=
  if total_growth fpow p initial_nw < 0 then
    calculate_break_even_years (monthly_projections fpow p initial_nw) initial_nw
  else none

/-- Spec-side reading of `years_to_break_even`'s value (claim C7): the first
year whose annual (year-end) net worth reaches the initial net worth, read off
the annual summary — the sub-list of rows with `month % 12 == 0`. -/
def spec_first_annual_break_even (records : List MonthRecord) (initial_nw : ℚ) : Option ℚ :=
  (((records.filter (fun r => r.month % 12 = 0)).find?
      (fun r => decide (initial_nw ≤ r.net_worth))).map (fun r => r.year))

/-- Spec-side reading of monthly expenses (claim C4): seasonal multiplier
looked up at `((month - 1) mod 12) + 1`, every category multiplied by its
(default-1) multiplier. -/
def spec_month_expenses (fpow : ℚ → ℚ → ℚ) (e : ExpenseProjection) (month : ℕ) : ℚ :=
  (e.base_expenses.map (fun cb =>
    cb.2 * fpow (1 + e.expense_growth_rate) ((month : ℚ) / 12)
      * seasonalMult e.seasonal_adjustments cb.1 ((month - 1) % 12 + 1))).sum

/-- Computable stand-in for the abstract float power, used by witnesses: it
honours `1 ** q = 1` and `x ** n = xⁿ` for integer exponents, which is all
any hypothesis in this file asks of `fpow`. -/
def fpowDefault (x q : ℚ) : ℚ :=
  if x = 1 then 1 else if q.den = 1 then x ^ q.num else 1

/-- One year of `_run_single_simulation`: income with growth and the year's
random variation, inflated expenses, taxes, cash flow, then
`net_worth += annual_cash_flow + investment_growth` with growth computed on
the pre-update balance.  Exponents here are Python `**` with an `int`
exponent, i.e. exact natural powers. -/
def simYearStep (p : ScenarioParameters) (year : ℕ) (nw ret variation : ℚ) : ℚ :=
  let base_income := p.income.base_salary * (1 + p.income.salary_growth_rate) ^ year
  let varied_income := base_income * variation
  let total_income := varied_income + p.income.bonus_amount + p.income.other_income
  let total_expenses :=
    ((p.expenses.base_expenses.map (fun cb => cb.2)).sum)
      * (1 + p.expenses.expense_growth_rate) ^ year
  let tax_total := (calculate_taxes total_income 0 p.tax_rates 0).total_tax
  let annual_cash_flow := total_income - total_expenses - tax_total
  let investment_growth := nw * ret
  nw + (annual_cash_flow + investment_growth)

/-- The `for year in range(time_horizon_years)` loop of
`_run_single_simulation`: `k` years starting at index `year`. -/
def simFrom (p : ScenarioParameters) (annual_returns income_variations : ℕ → ℚ) :
    ℕ → ℕ → ℚ → ℚ
  | _year, 0, nw => nw
  | year, k + 1, nw =>
    simFrom p annual_returns income_variations (year + 1) k
      (simYearStep p year nw (annual_returns year) (income_variations year))

/-- Embedding of `_run_single_simulation(params, annual_returns,
income_variations)`: the per-year random draws are passed in as sequences. -/
def run_single_simulation (p : ScenarioParameters) (initial_nw : ℚ)
    (annual_returns income_variations : ℕ → ℚ) : ℚ :=
  simFrom p annual_returns income_variations 0 p.time_horizon_years initial_nw

/-- Trial outcomes of `run_monte_carlo_simulation`: trial `i` uses the `i`-th
random streams; `np.random.normal` is abstracted as the caller-supplied
per-trial sample sequences (a draw with standard deviation 0 is exactly its
mean, which the determinism theorem takes as a hypothesis). -/
def run_monte_carlo_outcomes (p : ScenarioParameters) (initial_nw : ℚ)
    (returnsOf variationsOf : ℕ → ℕ → ℚ) (num_simulations : ℕ) : List ℚ :=
  (List.range num_simulations).map
    (fun i => run_single_simulation p initial_nw (returnsOf i) (variationsOf i))

/-- Ledger dates, as used by the extractor: `day` is a linear day ordinal
(used for `<=` comparisons and the 365-day window) and `ym` is the linearized
calendar month `year * 12 + (month - 1)` (used for monthly bucketing; the
source's month-minus-i-with-wraparound arithmetic is exactly `ym - i`). -/
structure CalDate where
  ym : ℤ
  day : ℤ
deriving Repr, DecidableEq

/-- A posting line of a beancount transaction: account path and signed
amount. -/
structure Posting where
  account : String
  amount : ℚ
deriving Repr

/-- A beancount `Transaction` entry: a date plus postings. -/
structure Txn where
  txn_date : CalDate
  postings : List Posting
deriving Repr

/-- First-occurrence deduplication (accumulator of already-seen keys). -/
def dedupAux {α : Type} [DecidableEq α] (seen : List α) : List α → List α
  | [] => []
  | a :: rest =>
    if a ∈ seen then dedupAux seen rest else a :: dedupAux (a :: seen) rest

/-- The result of `get_account_balances`, modelling the pandas frame it
returns: `has_columns` is false exactly when the frame was built from an
empty record list — such a frame has no named columns, and selecting
`balances["account"]` from it raises `KeyError`.  (A frame that merely
filtered away all its rows keeps its columns.) -/
structure BalancesDf where
  rows : List (String × ℚ)
  has_columns : Bool
deriving Repr

/-- Embedding of `get_account_balances(entries, options_map, as_of_date)`:
realize per-account totals over entries dated up to `as_of`, then drop
near-zero balances (`abs > 0.01`). -/
def get_account_balances (entries : List Txn) (as_of : CalDate) : BalancesDf :=
  let filtered := entries.filter (fun t => decide (t.txn_date.day ≤ as_of.day))
  let ps := filtered.flatMap (fun t => t.postings)
  let accts := dedupAux [] (ps.map (fun pt => pt.account))
  let raw := accts.map (fun a =>
    (a, ((ps.filter (fun pt => pt.account = a)).map (fun pt => pt.amount)).sum))
  { rows := raw.filter (fun b => decide (1/100 < |b.2|)),
    has_columns := !raw.isEmpty }

/-- Embedding of `get_monthly_trends(entries, options_map, account_pattern,
months_back)`, reduced to its `amount` column (the only column the extractor
reads): entry `i` is the total of matching postings in calendar month
`today - i`.  The source's single `if month <= 0: month += 12; year -= 1`
wraparound equals `ym - i` for the `months_back = 12` window the extractor
uses (beyond 13 months the source would build an invalid month number).
The source sorts the rows by date before returning; the mean taken of them
is order-independent, so the sort is omitted. -/
def get_monthly_trends (entries : List Txn) (pattern : String) (today : CalDate)
    (months_back : ℕ) : List ℚ :=
  (List.range months_back).map (fun i =>
    ((entries.filter (fun t => t.txn_date.ym = today.ym - (i : ℤ))).map (fun t =>
      ((t.postings.filter (fun pt => pt.account.startsWith pattern)).map
        (fun pt => pt.amount)).sum)).sum)

/-- Expense-posting rows of `get_transactions` restricted to the trailing
365-day window and to accounts under `Expenses:`, as used by
`_analyze_expense_patterns`; each row keeps its month bucket, extracted
category (first path segment after `Expenses:`) and amount. -/
def expenseWindowRows (entries : List Txn) (today : CalDate) : List (ℤ × String × ℚ) :=
  (entries.filter (fun t =>
      decide (today.day - 365 ≤ t.txn_date.day) && decide (t.txn_date.day ≤ today.day))).flatMap
    (fun t =>
      (t.postings.filter (fun pt => pt.account.startsWith ("Expenses:"))).map
        (fun pt => (t.txn_date.ym, (pt.account.drop 9).takeWhile (fun c => c ≠ ':'),
                    pt.amount)))

/-- Per-category statistics dictionary built by `_analyze_expense_patterns`. -/
structure ExpenseStats where
  monthly_average : ℚ
  monthly_std : ℚ
  total_last_year : ℚ
  trend : ℚ
deriving Repr

/-- Ordinary-least-squares slope of `values` against a 0-based index,
`_calculate_trend`'s `np.polyfit(x, values, 1)` in closed form:
`slope = (n·Σxy − Σx·Σy) / (n·Σx² − (Σx)²)`, and 0 when fewer than two
points exist. -/
def calculate_trend (values : List ℚ) : ℚ :=
  if values.length < 2 then 0
  else
    let n : ℚ := values.length
    let xs := (List.range values.length).map (fun i => (i : ℚ))
    let sx := xs.sum
    let sy := values.sum
    let sxy := ((xs.zip values).map (fun xy => xy.1 * xy.2)).sum
    let sxx := (xs.map (fun x => x * x)).sum
    (n * sxy - sx * sy) / (n * sxx - sx * sx)

/-- Embedding of `_analyze_expense_patterns`.  `sqrtO` abstracts the real
square root used by the sample standard deviation (pandas `.std()`); with a
single monthly bucket pandas yields `NaN`, modelled here as 0 — no theorem
relies on that value. -/
def analyze_expense_patterns (sqrtO : ℚ → ℚ) (entries : List Txn) (today : CalDate) :
    List (String × ExpenseStats) :=
  let rows := expenseWindowRows entries today
  if rows.isEmpty then []
  else
    let cats := dedupAux [] (rows.map (fun r => r.2.1))
    cats.map (fun c =>
      let catRows := rows.filter (fun r => r.2.1 = c)
      let months := dedupAux [] (catRows.map (fun r => r.1))
      let sums := months.map (fun m =>
        ((catRows.filter (fun r => r.1 = m)).map (fun r => r.2.2)).sum)
      let n : ℚ := sums.length
      let mean := sums.sum / n
      let std :=
        if sums.length < 2 then 0
        else sqrtO (((sums.map (fun x => (x - mean) * (x - mean))).sum) / (n - 1))
      (c, { monthly_average := mean, monthly_std := std,
            total_last_year := sums.sum, trend := calculate_trend sums }))

/-- The snapshot dictionary returned by `_get_current_state`. -/
structure Snapshot where
  net_worth : ℚ
  total_assets : ℚ
  total_liabilities : ℚ
  avg_monthly_income : ℚ
  avg_monthly_expenses : ℚ
  expense_breakdown : List (String × ExpenseStats)
  account_balances : List (String × ℚ)
deriving Repr

/-- Embedding of `_get_current_state`.  On a ledger with no balance rows at
all, `pd.DataFrame([])` has no columns and `balances["account"]` raises
`KeyError` — the `Except.error` branch. -/
def get_current_state (sqrtO : ℚ → ℚ) (entries : List Txn) (today : CalDate) :
    Except String Snapshot :=
  let balances := get_account_balances entries today
  if balances.has_columns = false then
    Except.error ("KeyError: account")
  else
    let assets :=
      ((balances.rows.filter (fun b => b.1.startsWith ("Assets:"))).map (fun b => b.2)).sum
    let liabilities :=
      ((balances.rows.filter (fun b => b.1.startsWith ("Liabilities:"))).map
        (fun b => b.2)).sum
    let income_trends := get_monthly_trends entries ("Income:") today 12
    let expense_trends := get_monthly_trends entries ("Expenses:") today 12
    let avg_income :=
      if 0 < income_trends.length then |income_trends.sum / (income_trends.length : ℚ)| else 0
    let avg_expenses :=
      if 0 < expense_trends.length then expense_trends.sum / (expense_trends.length : ℚ) else 0
    Except.ok
      { net_worth := assets + liabilities,
        total_assets := assets,
        total_liabilities := |liabilities|,
        avg_monthly_income := avg_income,
        avg_monthly_expenses := avg_expenses,
        expense_breakdown := analyze_expense_patterns sqrtO entries today,
        account_balances := balances.rows }

/-- Concrete inputs used by witnesses: a single zero-rate unbounded federal
bracket (keeping the bracket list nonempty, as an empty one makes the source's
`calculate_taxes` raise in `_get_marginal_rate`). -/
def taxRatesZero : TaxRates :=
  { federal_brackets := [(0, none)], state_rate := 0, fica_rate := 0,
    ltcg_rate := 0, stcg_rate := 0 }

/-- All-zero income parameters (bonus frequency 1, a well-defined value). -/
def incomeZero : IncomeProjection :=
  { base_salary := 0, salary_growth_rate := 0, bonus_amount := 0, bonus_frequency := 1,
    investment_income := 0, other_income := 0, income_volatility := 0 }

/-- No expenses. -/
def expensesZero : ExpenseProjection :=
  { base_expenses := [], expense_growth_rate := 0, variable_expenses := [],
    seasonal_adjustments := [] }

/-- Zero-return, zero-volatility investments. -/
def investmentsZero : InvestmentProjection :=
  { expected_return := 0, volatility := 0, rebalancing_frequency := 12,
    asset_allocation := [], contribution_schedule := [] }

/-- A one-year scenario in which everything is zero. -/
def pZero : ScenarioParameters :=
  { scenario_type := ScenarioType.custom, time_horizon_years := 1, income := incomeZero,
    expenses := expensesZero, investments := investmentsZero, loans := [],
    tax_rates := taxRatesZero, tax_advantaged_accounts := [], major_purchases := [],
    windfalls := [] }

/-- Zero scenario except a 12/year salary: month 0's emitted gross income is
1, not 0 (claim C3's counterexample input). -/
def pSalaryOnly : ScenarioParameters :=
  { pZero with income := { incomeZero with base_salary := 12 } }

/-- Zero scenario except one expense category with seasonal multipliers 2 for
calendar month 1 and 3 for calendar month 2 (claim C4's counterexample
input). -/
def pSeasonal : ScenarioParameters :=
  { pZero with expenses :=
      { base_expenses := [("Food", 100)], expense_growth_rate := 0,
        variable_expenses := [], seasonal_adjustments := [("Food", [(1, 2), (2, 3)])] } }

/-- Zero scenario except a 100 windfall at month 1: net worth 100 doubles to
200 within one year (claim C6's counterexample input). -/
def pWindfall : ScenarioParameters :=
  { pZero with windfalls := [(1, 100, "w")] }

/-- Zero scenario except a 50 purchase at month 1: from net worth 100 the
scenario loses money, so the break-even metric is computed (claim C7's
witness input). -/
def pPurchase : ScenarioParameters :=
  { pZero with major_purchases := [(1, 50, "p")] }

/-- Two-year scenario with income, an expense and a 7% expected return, for
the Monte Carlo determinism witness. -/
def pGrowth : ScenarioParameters :=
  { pZero with
    time_horizon_years := 2
    income := { incomeZero with base_salary := 1200 }
    expenses := { expensesZero with base_expenses := [("Other", 10)] }
    investments := { investmentsZero with expected_return := 7/100 } }

theorem bracketSliceSum_of_le (income : ℚ) :
    ∀ (bs : List FedBracket) (prev : ℚ), income ≤ prev → chainFromB prev bs = true →
      bracketSliceSum income prev bs = 0 := by
  intro bs
  induction bs with
  | nil => intro prev _ _; rfl
  | cons b rest ih =>
    intro prev h hchain
    obtain ⟨rate, t⟩ := b
    cases t with
    | none =>
      simp only [bracketSliceSum]
      have : income - prev ≤ 0 := by linarith
      rw [max_eq_left this, mul_zero]
    | some t =>
      simp only [chainFromB, Bool.and_eq_true, decide_eq_true_eq] at hchain
      obtain ⟨hpt, hrest⟩ := hchain
      simp only [bracketSliceSum]
      have h1 : min income t - prev ≤ 0 := by
        have : min income t ≤ income := min_le_left _ _
        linarith
      rw [max_eq_left h1, mul_zero, ih t (le_trans h hpt) hrest, add_zero]

theorem progressiveTaxGo_eq_slices (income : ℚ) :
    ∀ (bs : List FedBracket) (prev tax : ℚ), chainFromB prev bs = true →
      progressiveTaxGo income prev tax bs = tax + bracketSliceSum income prev bs := by
  intro bs
  induction bs with
  | nil => intro prev tax _; simp [progressiveTaxGo, bracketSliceSum]
  | cons b rest ih =>
    intro prev tax hchain
    obtain ⟨rate, t⟩ := b
    by_cases hle : income ≤ prev
    · rw [bracketSliceSum_of_le income _ prev hle hchain]
      simp [progressiveTaxGo, hle]
    · push_neg at hle
      cases t with
      | none =>
        simp only [progressiveTaxGo, if_neg (not_le.mpr hle), bracketSliceSum]
        rw [max_eq_right (by linarith : (0:ℚ) ≤ income - prev)]
        ring
      | some t =>
        simp only [chainFromB, Bool.and_eq_true, decide_eq_true_eq] at hchain
        obtain ⟨hpt, hrest⟩ := hchain
        have hmin : (0:ℚ) ≤ min income t - prev := by
          have := le_min (le_of_lt hle) hpt
          linarith
        by_cases hit : income ≤ t
        · simp only [progressiveTaxGo, if_neg (not_le.mpr hle), if_pos hit, bracketSliceSum]
          rw [bracketSliceSum_of_le income rest t hit hrest, max_eq_right hmin]
          ring
        · simp only [progressiveTaxGo, if_neg (not_le.mpr hle), if_neg hit, bracketSliceSum]
          rw [ih t (tax + (min income t - prev) * rate) hrest, max_eq_right hmin]
          ring

theorem calculate_progressive_tax_eq_slices (income : ℚ) (bs : List FedBracket)
    (hchain : chainFromB 0 bs = true) :
    calculate_progressive_tax income bs = bracketSliceSum income 0 bs := by
  unfold calculate_progressive_tax
  by_cases h : income ≤ 0
  · rw [if_pos h, bracketSliceSum_of_le income bs 0 h hchain]
  · rw [if_neg h, progressiveTaxGo_eq_slices income bs 0 0 hchain, zero_add]

theorem bracketSliceSum_mono {i1 i2 : ℚ} (h : i1 ≤ i2) :
    ∀ (bs : List FedBracket) (prev : ℚ), (∀ rt ∈ bs, (0:ℚ) ≤ rt.1) →
      bracketSliceSum i1 prev bs ≤ bracketSliceSum i2 prev bs := by
  intro bs
  induction bs with
  | nil => intro prev _; simp [bracketSliceSum]
  | cons b rest ih =>
    intro prev hr
    obtain ⟨rate, t⟩ := b
    have hrate : (0:ℚ) ≤ rate := hr (rate, t) (List.mem_cons_self _ _)
    have hrest : ∀ rt ∈ rest, (0:ℚ) ≤ rt.1 := fun rt hm => hr rt (List.mem_cons_of_mem _ hm)
    cases t with
    | none =>
      simp only [bracketSliceSum]
      apply mul_le_mul_of_nonneg_left _ hrate
      exact max_le_max le_rfl (by linarith)
    | some t =>
      simp only [bracketSliceSum]
      have hterm : rate * max 0 (min i1 t - prev) ≤ rate * max 0 (min i2 t - prev) := by
        apply mul_le_mul_of_nonneg_left _ hrate
        apply max_le_max le_rfl
        have : min i1 t ≤ min i2 t := min_le_min h le_rfl
        linarith
      exact add_le_add hterm (ih t hrest)

theorem ratesInUnitB_nonneg {bs : List FedBracket} (h : ratesInUnitB bs = true) :
    ∀ rt ∈ bs, (0:ℚ) ≤ rt.1 := by
  intro rt hm
  have := List.all_eq_true.mp h rt hm
  simp only [Bool.and_eq_true, decide_eq_true_eq] at this
  exact this.1

theorem projectionsFrom_length (fpow : ℚ → ℚ → ℚ) (p : ScenarioParameters) :
    ∀ (k start : ℕ) (nw : ℚ), (projectionsFrom fpow p start nw k).length = k := by
  intro k
  induction k with
  | zero => intro start nw; rfl
  | succ k ih => intro start nw; simp [projectionsFrom, ih]

theorem projectionsFrom_getD_zero (fpow : ℚ → ℚ → ℚ) (p : ScenarioParameters)
    (start : ℕ) (nw : ℚ) (k : ℕ) (hk : 0 < k) :
    (projectionsFrom fpow p start nw k).getD 0 default = recordAt fpow p start nw := by
  cases k with
  | zero => exact absurd hk (lt_irrefl 0)
  | succ k => rfl

theorem projectionsFrom_getD_succ (fpow : ℚ → ℚ → ℚ) (p : ScenarioParameters) :
    ∀ (k start : ℕ) (nw : ℚ) (i : ℕ), i + 1 < k →
      (projectionsFrom fpow p start nw k).getD (i + 1) default
        = recordAt fpow p (start + i + 1)
            (((projectionsFrom fpow p start nw k).getD i default).net_worth) := by
  intro k
  induction k with
  | zero => intro start nw i h; exact absurd h (Nat.not_lt_zero _)
  | succ k ih =>
    intro start nw i h
    cases i with
    | zero =>
      have hk : 0 < k := by omega
      simp only [projectionsFrom, List.getD_cons_succ, List.getD_cons_zero]
      rw [projectionsFrom_getD_zero fpow p (start + 1) _ k hk]
    | succ j =>
      have h' : j + 1 < k := by omega
      have e : start + 1 + j + 1 = start + (j + 1) + 1 := by omega
      simp only [projectionsFrom, List.getD_cons_succ]
      rw [ih (start + 1) _ j h', e]

theorem projectionsFrom_getD_shape (fpow : ℚ → ℚ → ℚ) (p : ScenarioParameters) :
    ∀ (k start : ℕ) (nw : ℚ) (i : ℕ), i < k →
      ∃ w, (projectionsFrom fpow p start nw k).getD i default = recordAt fpow p (start + i) w := by
  intro k
  induction k with
  | zero => intro start nw i h; exact absurd h (Nat.not_lt_zero _)
  | succ k ih =>
    intro start nw i h
    cases i with
    | zero => exact ⟨nw, rfl⟩
    | succ j =>
      have h' : j < k := by omega
      obtain ⟨w, hw⟩ := ih (start + 1) (recordAt fpow p start nw).net_worth j h'
      refine ⟨w, ?_⟩
      have e : start + 1 + j = start + (j + 1) := by omega
      simp only [projectionsFrom, List.getD_cons_succ]
      rw [hw, e]

theorem recordAt_net_worth_pos (fpow : ℚ → ℚ → ℚ) (p : ScenarioParameters)
    (m : ℕ) (nw : ℚ) (hm : 0 < m) :
    (recordAt fpow p m nw).net_worth
      = nw + ((recordAt fpow p m nw).net_cash_flow
              + (recordAt fpow p m nw).investment_growth) := by
  simp only [recordAt, if_pos hm]

/-- C2: for every scenario and every month index m > 0 in the monthly
projection output, `net_worth[m] = net_worth[m-1] + net_cash_flow[m] +
investment_growth[m]` exactly — the loop's only update of the running net
worth. -/
theorem c2_net_worth_conservation (fpow : ℚ → ℚ → ℚ) (p : ScenarioParameters) (init : ℚ)
    (m : ℕ) (hm : 0 < m) (hlen : m < (monthly_projections fpow p init).length) :
    ((monthly_projections fpow p init).getD m default).net_worth
      = ((monthly_projections fpow p init).getD (m - 1) default).net_worth
        + ((monthly_projections fpow p init).getD m default).net_cash_flow
        + ((monthly_projections fpow p init).getD m default).investment_growth := by
  obtain ⟨j, rfl⟩ : ∃ j, m = j + 1 := ⟨m - 1, by omega⟩
  have hlen' : j + 1 < p.time_horizon_years * 12 + 1 := by
    rwa [monthly_projections, projectionsFrom_length] at hlen
  have es : j + 1 - 1 = j := by omega
  have e0 : 0 + j + 1 = j + 1 := by omega
  rw [es, monthly_projections,
    projectionsFrom_getD_succ fpow p (p.time_horizon_years * 12 + 1) 0 init j hlen', e0,
    recordAt_net_worth_pos fpow p (j + 1) _ (by omega)]
  ring

theorem c2_net_worth_conservation_witness :
    ((0:ℕ) < 5 ∧ 5 < (monthly_projections fpowDefault pZero 0).length) ∧
    ((monthly_projections fpowDefault pZero 0).getD 5 default).net_worth
      = ((monthly_projections fpowDefault pZero 0).getD 4 default).net_worth
        + ((monthly_projections fpowDefault pZero 0).getD 5 default).net_cash_flow
        + ((monthly_projections fpowDefault pZero 0).getD 5 default).investment_growth :=
  ⟨⟨by decide, by decide⟩,
    c2_net_worth_conservation fpowDefault pZero 0 5 (by decide) (by decide)⟩

theorem fpowDefault_zero (x : ℚ) : fpowDefault x 0 = 1 := by
  by_cases hx : x = 1 <;> simp [fpowDefault, hx]

theorem monthExpenses_eq_seasonal (fpow : ℚ → ℚ → ℚ) (e : ExpenseProjection) (month : ℕ) :
    monthExpenses fpow e month
      = (e.base_expenses.map (fun cb =>
          cb.2 * fpow (1 + e.expense_growth_rate) ((month : ℚ) / 12)
            * seasonalMult e.seasonal_adjustments cb.1 (month % 12 + 1))).sum := by
  simp only [monthExpenses]
  congr 1
  apply List.map_congr_left
  intro cb _
  cases h : dictGet e.seasonal_adjustments cb.1 with
  | none => simp [seasonalMult, h]
  | some m => simp [seasonalMult, h]

theorem recordAt_net_worth_zero (fpow : ℚ → ℚ → ℚ) (p : ScenarioParameters) (nw : ℚ) :
    (recordAt fpow p 0 nw).net_worth = nw := by
  simp [recordAt]

/-- C3 counterexample: with a 12-per-year salary and everything else zero, the
month-0 record carries gross income 1 — the month-0 flow fields are not all
zero as the claim asserts (only the net worth is anchored). -/
theorem c3_baseline_counterexample :
    ((monthly_projections fpowDefault pSalaryOnly 100).getD 0 default).net_worth = 100 ∧
    ((monthly_projections fpowDefault pSalaryOnly 100).getD 0 default).gross_income = 1 ∧
    ¬ ((monthly_projections fpowDefault pSalaryOnly 100).getD 0 default).gross_income = 0 :=
  ⟨by with_unfolding_all decide, by with_unfolding_all decide, by with_unfolding_all decide⟩

/-- C3 (amended): the month-0 record of the projection has `net_worth` equal
to the snapshot value (no update is applied at month 0), but its flow fields
are not zero: they hold the ordinary month-0 formula values — gross income
`base_salary/12 + other_income/12` (no bonus), expenses at inflation factor 1
with the seasonal multiplier of calendar month 1, investment growth computed
on the snapshot net worth, the month-0 one-time events, and the resulting net
cash flow. -/
theorem c3_baseline_anchor_amended (fpow : ℚ → ℚ → ℚ) (p : ScenarioParameters) (init : ℚ)
    (h0 : ∀ x, fpow x 0 = 1) :
    (((monthly_projections fpow p init).getD 0 default).net_worth = init)
    ∧ (((monthly_projections fpow p init).getD 0 default).gross_income
        = p.income.base_salary / 12 + p.income.other_income / 12)
    ∧ (((monthly_projections fpow p init).getD 0 default).expenses
        = (p.expenses.base_expenses.map (fun cb =>
            cb.2 * seasonalMult p.expenses.seasonal_adjustments cb.1 1)).sum)
    ∧ (((monthly_projections fpow p init).getD 0 default).investment_growth
        = init * (fpow (1 + p.investments.expected_return) (1 / 12) - 1))
    ∧ (((monthly_projections fpow p init).getD 0 default).one_time_events
        = oneTimeNet p.major_purchases p.windfalls 0)
    ∧ (((monthly_projections fpow p init).getD 0 default).net_cash_flow
        = ((monthly_projections fpow p init).getD 0 default).gross_income
          - ((monthly_projections fpow p init).getD 0 default).expenses
          - ((monthly_projections fpow p init).getD 0 default).taxes
          + ((monthly_projections fpow p init).getD 0 default).one_time_events) := by
  have hz := projectionsFrom_getD_zero fpow p 0 init (p.time_horizon_years * 12 + 1)
    (Nat.succ_pos _)
  rw [monthly_projections, hz]
  refine ⟨by simp [recordAt], ?_, ?_, by simp [recordAt], by simp [recordAt], by simp [recordAt]⟩
  · simp only [recordAt]
    unfold monthlyIncome
    rw [if_neg (by simp)]
    simp [h0]
  · simp only [recordAt]
    rw [monthExpenses_eq_seasonal]
    simp [h0]

theorem c3_baseline_anchor_amended_witness :
    ((monthly_projections fpowDefault pSalaryOnly 7).getD 0 default).net_worth = 7 ∧
    ((monthly_projections fpowDefault pSalaryOnly 7).getD 0 default).gross_income
      = pSalaryOnly.income.base_salary / 12 + pSalaryOnly.income.other_income / 12 :=
  ⟨(c3_baseline_anchor_amended fpowDefault pSalaryOnly 7 fpowDefault_zero).1,
   (c3_baseline_anchor_amended fpowDefault pSalaryOnly 7 fpowDefault_zero).2.1⟩

/-- C4 counterexample: with seasonal multipliers 2 for calendar month 1 and 3
for calendar month 2 on a 100 base, month 1 of the projection charges 300 —
the source looks the multiplier up at `(month % 12) + 1 = 2` — while the
claim's `((month-1) mod 12) + 1 = 1` lookup predicts 200. -/
theorem c4_seasonal_counterexample :
    ((monthly_projections fpowDefault pSeasonal 0).getD 1 default).expenses = 300 ∧
    spec_month_expenses fpowDefault pSeasonal.expenses 1 = 200 ∧
    ((300:ℚ) ≠ 200) :=
  ⟨by with_unfolding_all decide, by with_unfolding_all decide, by with_unfolding_all decide⟩

/-- C4 (amended): for every scenario and month index m, the emitted monthly
expenses equal the sum over categories of
`base * (1+inflation) ** (m/12) * seasonal_multiplier(category, (m mod 12) + 1)`
(default multiplier 1 when absent) — so month 1 uses calendar month 2, month
11 uses calendar month 12, and month 12 uses calendar month 1. -/
theorem c4_seasonal_expenses_amended (fpow : ℚ → ℚ → ℚ) (p : ScenarioParameters)
    (init : ℚ) (m : ℕ) (hlen : m < (monthly_projections fpow p init).length) :
    ((monthly_projections fpow p init).getD m default).expenses
      = (p.expenses.base_expenses.map (fun cb =>
          cb.2 * fpow (1 + p.expenses.expense_growth_rate) ((m : ℚ) / 12)
            * seasonalMult p.expenses.seasonal_adjustments cb.1 (m % 12 + 1))).sum := by
  rw [monthly_projections, projectionsFrom_length] at hlen
  rw [monthly_projections]
  obtain ⟨w, hw⟩ :=
    projectionsFrom_getD_shape fpow p (p.time_horizon_years * 12 + 1) 0 init m hlen
  rw [hw]
  have e : 0 + m = m := by omega
  rw [e]
  simp only [recordAt]
  exact monthExpenses_eq_seasonal fpow p.expenses m

theorem c4_seasonal_expenses_amended_witness :
    (3 < (monthly_projections fpowDefault pSeasonal 0).length) ∧
    ((monthly_projections fpowDefault pSeasonal 0).getD 3 default).expenses
      = (pSeasonal.expenses.base_expenses.map (fun cb =>
          cb.2 * fpowDefault (1 + pSeasonal.expenses.expense_growth_rate) (((3:ℕ) : ℚ) / 12)
            * seasonalMult pSeasonal.expenses.seasonal_adjustments cb.1 (3 % 12 + 1))).sum :=
  ⟨by with_unfolding_all decide, c4_seasonal_expenses_amended fpowDefault pSeasonal 0 3 (by with_unfolding_all decide)⟩

/-- C7: `years_to_break_even` is `None` unless `total_growth < 0`, and when
computed it equals the first year whose annual (year-end) net worth reaches
the initial net worth.  (Both sides are realized by the month-0 baseline row,
whose net worth equals the initial net worth, so the metric is 0 whenever it
is computed.) -/
theorem c7_years_to_break_even (fpow : ℚ → ℚ → ℚ) (p : ScenarioParameters) (init : ℚ) :
    (0 ≤ total_growth fpow p init → years_to_break_even fpow p init = none)
    ∧ (total_growth fpow p init < 0 →
        years_to_break_even fpow p init
          = spec_first_annual_break_even (monthly_projections fpow p init) init) := by
  constructor
  · intro h
    unfold years_to_break_even
    rw [if_neg (not_lt.mpr h)]
  · intro h
    unfold years_to_break_even
    rw [if_pos h]
    unfold spec_first_annual_break_even calculate_break_even_years
    rw [monthly_projections]
    simp only [projectionsFrom]
    rw [List.filter_cons_of_pos (by simp [recordAt]),
      List.find?_cons_of_pos _ (by simp [recordAt, recordAt_net_worth_zero]),
      List.find?_cons_of_pos _ (by simp [recordAt, recordAt_net_worth_zero])]

theorem c7_years_to_break_even_witness :
    years_to_break_even fpowDefault pPurchase 100
      = spec_first_annual_break_even (monthly_projections fpowDefault pPurchase 100) 100 :=
  (c7_years_to_break_even fpowDefault pPurchase 100).2 (by with_unfolding_all decide)

/-- C1: bracket boundary exactness for the 2025 married-joint schedule — the
federal component of `calculate_taxes` at gross income 23200 (no investment
gains, no pretax contribution) is exactly `23200 * 0.10`, at 94300 exactly
`23200 * 0.10 + (94300 - 23200) * 0.12` — and in general, for a schedule with
ascending bounds, the federal walk taxes each slice of taxable income at its
own bracket's rate (`bracketSliceSum`). -/
theorem c1_federal_bracket_walk :
    ((calculate_taxes 23200 0 get_2025_married_joint 0).federal_tax = 23200 * (10/100))
    ∧ ((calculate_taxes 94300 0 get_2025_married_joint 0).federal_tax
        = 23200 * (10/100) + (94300 - 23200) * (12/100))
    ∧ ∀ (income : ℚ) (brackets : List FedBracket), chainFromB 0 brackets = true →
        calculate_progressive_tax income brackets = bracketSliceSum income 0 brackets := by
  refine ⟨?_, ?_, ?_⟩
  · norm_num [calculate_taxes, calculate_progressive_tax, progressiveTaxGo,
      get_2025_married_joint]
  · norm_num [calculate_taxes, calculate_progressive_tax, progressiveTaxGo,
      get_2025_married_joint]
  · intro income brackets hchain
    exact calculate_progressive_tax_eq_slices income brackets hchain

theorem c1_federal_bracket_walk_witness :
    calculate_progressive_tax 50000 get_2025_married_joint.federal_brackets
      = bracketSliceSum 50000 0 get_2025_married_joint.federal_brackets :=
  c1_federal_bracket_walk.2.2 50000 get_2025_married_joint.federal_brackets
    (by norm_num [chainFromB, get_2025_married_joint])

/-- C8: for a fixed well-formed tax schedule (ascending bracket bounds, last
bound infinite, all rates in [0,1]) and fixed investment gains and pretax
contribution, the total tax of `calculate_taxes` is non-decreasing in gross
income. -/
theorem c8_total_tax_monotone (tr : TaxRates) (gains contrib g1 g2 : ℚ)
    (hchain : chainFromB 0 tr.federal_brackets = true)
    (hrates : ratesInUnitB tr.federal_brackets = true)
    (hinf : lastBoundInfB tr.federal_brackets = true)
    (hs0 : 0 ≤ tr.state_rate) (hs1 : tr.state_rate ≤ 1)
    (hf0 : 0 ≤ tr.fica_rate) (hf1 : tr.fica_rate ≤ 1)
    (hg : g1 ≤ g2) :
    (calculate_taxes g1 gains tr contrib).total_tax
      ≤ (calculate_taxes g2 gains tr contrib).total_tax := by
  simp only [calculate_taxes]
  have ht : max 0 (g1 - contrib) ≤ max 0 (g2 - contrib) :=
    max_le_max le_rfl (by linarith)
  have hfed : calculate_progressive_tax (max 0 (g1 - contrib)) tr.federal_brackets
      ≤ calculate_progressive_tax (max 0 (g2 - contrib)) tr.federal_brackets := by
    rw [calculate_progressive_tax_eq_slices _ _ hchain,
      calculate_progressive_tax_eq_slices _ _ hchain]
    exact bracketSliceSum_mono ht tr.federal_brackets 0 (ratesInUnitB_nonneg hrates)
  have hstate : max 0 (g1 - contrib) * tr.state_rate ≤ max 0 (g2 - contrib) * tr.state_rate :=
    mul_le_mul_of_nonneg_right ht hs0
  have hfica : g1 * tr.fica_rate ≤ g2 * tr.fica_rate :=
    mul_le_mul_of_nonneg_right hg hf0
  linarith

theorem c8_total_tax_monotone_witness :
    (chainFromB 0 get_2025_married_joint.federal_brackets = true
      ∧ ratesInUnitB get_2025_married_joint.federal_brackets = true
      ∧ lastBoundInfB get_2025_married_joint.federal_brackets = true)
    ∧ (calculate_taxes 50000 1000 get_2025_married_joint 5000).total_tax
        ≤ (calculate_taxes 100000 1000 get_2025_married_joint 5000).total_tax :=
  ⟨⟨by norm_num [chainFromB, get_2025_married_joint],
    by norm_num [ratesInUnitB, get_2025_married_joint],
    by norm_num [lastBoundInfB, get_2025_married_joint]⟩,
   c8_total_tax_monotone get_2025_married_joint 1000 5000 50000 100000
     (by norm_num [chainFromB, get_2025_married_joint])
     (by norm_num [ratesInUnitB, get_2025_married_joint])
     (by norm_num [lastBoundInfB, get_2025_married_joint])
     (by norm_num [get_2025_married_joint]) (by norm_num [get_2025_married_joint])
     (by norm_num [get_2025_married_joint]) (by norm_num [get_2025_married_joint])
     (by norm_num)⟩

theorem final_net_worth_eq_getD (fpow : ℚ → ℚ → ℚ) (p : ScenarioParameters) (init : ℚ) :
    final_net_worth fpow p init
      = ((monthly_projections fpow p init).getD (p.time_horizon_years * 12) default).net_worth := by
  unfold final_net_worth
  have hlen : (monthly_projections fpow p init).length = p.time_horizon_years * 12 + 1 := by
    rw [monthly_projections, projectionsFrom_length]
  have hlt : p.time_horizon_years * 12 < (monthly_projections fpow p init).length := by omega
  rw [List.getLast?_eq_getElem?, hlen, Nat.add_sub_cancel, List.getElem?_eq_getElem hlt,
    List.getD_eq_getElem?_getD, List.getElem?_eq_getElem hlt]
  rfl

/-- C6 counterexample: doubling 100 into 200 over one year makes the source's
`annualized_return` 100 (it multiplies by 100, reporting a percentage),
whereas the claim's formula `(final/initial) ** (1/years) - 1` gives 1. -/
theorem c6_annualized_return_counterexample :
    annualized_return fpowDefault pWindfall 100 = 100
    ∧ fpowDefault (final_net_worth fpowDefault pWindfall 100 / 100)
        (1 / (pWindfall.time_horizon_years : ℚ)) - 1 = 1
    ∧ ((100:ℚ) ≠ 1) :=
  ⟨by with_unfolding_all decide, by with_unfolding_all decide, by with_unfolding_all decide⟩

/-- C6 (amended): `annualized_return` equals
`((final/initial) ** (1/years) - 1) * 100` — a percentage, not the bare
ratio — when the initial net worth is positive, and 0 when it is ≤ 0, where
`final` is the net worth of the last monthly record (index `12 * years`).
The horizon is required positive: at 0 years the source raises
`ZeroDivisionError` instead. -/
theorem c6_annualized_return_amended (fpow : ℚ → ℚ → ℚ) (p : ScenarioParameters)
    (init : ℚ) (hy : 0 < p.time_horizon_years) :
    (init ≤ 0 → annualized_return fpow p init = 0)
    ∧ (0 < init → annualized_return fpow p init
        = (fpow (((monthly_projections fpow p init).getD
              (p.time_horizon_years * 12) default).net_worth / init)
            (1 / (p.time_horizon_years : ℚ)) - 1) * 100) := by
  constructor
  · intro h
    unfold annualized_return
    rw [if_neg (not_lt.mpr h)]
  · intro h
    unfold annualized_return
    rw [if_pos h, final_net_worth_eq_getD]

theorem c6_annualized_return_amended_witness :
    annualized_return fpowDefault pWindfall 100
      = (fpowDefault (((monthly_projections fpowDefault pWindfall 100).getD
            (pWindfall.time_horizon_years * 12) default).net_worth / 100)
          (1 / (pWindfall.time_horizon_years : ℚ)) - 1) * 100 :=
  (c6_annualized_return_amended fpowDefault pWindfall 100 (by decide)).2 (by decide)

theorem simFrom_congr (p : ScenarioParameters) (R1 V1 R2 V2 : ℕ → ℚ) :
    ∀ (k start : ℕ) (nw : ℚ),
      (∀ y, start ≤ y → y < start + k → R1 y = R2 y ∧ V1 y = V2 y) →
      simFrom p R1 V1 start k nw = simFrom p R2 V2 start k nw := by
  intro k
  induction k with
  | zero => intro start nw _; rfl
  | succ k ih =>
    intro start nw hagree
    simp only [simFrom]
    have h0 := hagree start le_rfl (by omega)
    rw [h0.1, h0.2]
    exact ih (start + 1) _ (fun y h1 h2 => hagree y (by omega) (by omega))

/-- C9: with zero income volatility and zero investment volatility every
normal draw collapses to its mean, so all Monte Carlo trials of
`run_monte_carlo_simulation` on the same parameters and snapshot produce the
same final net worth: any two trial outcomes are equal. -/
theorem c9_zero_volatility_determinism (p : ScenarioParameters) (init : ℚ)
    (returnsOf variationsOf : ℕ → ℕ → ℚ) (num : ℕ)
    (hret : ∀ i y, y < p.time_horizon_years → returnsOf i y = p.investments.expected_return)
    (hvar : ∀ i y, y < p.time_horizon_years → variationsOf i y = 1)
    (i j : ℕ) (hi : i < num) (hj : j < num) :
    (run_monte_carlo_outcomes p init returnsOf variationsOf num).getD i 0
      = (run_monte_carlo_outcomes p init returnsOf variationsOf num).getD j 0 := by
  have key : ∀ a, a < num →
      (run_monte_carlo_outcomes p init returnsOf variationsOf num).getD a 0
        = run_single_simulation p init (fun _ => p.investments.expected_return)
            (fun _ => 1) := by
    intro a ha
    unfold run_monte_carlo_outcomes
    have hlt : a < ((List.range num).map
        (fun i => run_single_simulation p init (returnsOf i) (variationsOf i))).length := by
      simpa using ha
    rw [List.getD_eq_getElem?_getD, List.getElem?_eq_getElem hlt]
    simp only [List.getElem_map, List.getElem_range, Option.getD_some]
    unfold run_single_simulation
    exact simFrom_congr p (returnsOf a) (variationsOf a) _ _ p.time_horizon_years 0 init
      (fun y h1 h2 => ⟨hret a y (by omega), hvar a y (by omega)⟩)
  rw [key i hi, key j hj]

theorem c9_zero_volatility_determinism_witness :
    (run_monte_carlo_outcomes pGrowth 100 (fun _ _ => 7/100)
        (fun i y => if y < 2 then 1 else (i : ℚ)) 3).getD 0 0
      = (run_monte_carlo_outcomes pGrowth 100 (fun _ _ => 7/100)
          (fun i y => if y < 2 then 1 else (i : ℚ)) 3).getD 2 0 :=
  c9_zero_volatility_determinism pGrowth 100 _ _ 3
    (fun _ _ _ => rfl)
    (fun i y hy => by simp only [if_pos (show y < 2 from hy)])
    0 2 (by decide) (by decide)

/-- C10 counterexample: `bonus_frequency = -1` makes the bonus condition
evaluate without error at month 1 (`12 // -1 = -12`, a nonzero divisor), yet
-1 is not between 1 and 12 — the claim's "total only when between 1 and 12"
is too narrow. -/
theorem c10_bonus_frequency_counterexample :
    ((bonusCondEval 1 (-1)).isSome = true) ∧ ¬ ((1:ℤ) ≤ -1 ∧ (-1:ℤ) ≤ 12) :=
  ⟨by decide, by decide⟩

/-- C10 (amended): for every month ≥ 1 the bonus condition
`month % (12 // bonus_frequency) == 0` evaluates without error iff
`bonus_frequency ≠ 0` and `bonus_frequency ≤ 12`: `bonus_frequency = 0`
fails at `12 // 0`, `bonus_frequency > 12` fails at `month % 0`, and every
negative frequency evaluates (floor division gives a nonzero negative
divisor), as does every frequency in 1..12.  At month 0 the condition always
evaluates, because `and` short-circuits before the division. -/
theorem c10_bonus_condition_totality (bf : ℤ) (m : ℕ) (hm : 0 < m) :
    ((bonusCondEval m bf).isSome = true ↔ (bf ≠ 0 ∧ bf ≤ 12))
    ∧ (bonusCondEval 0 bf).isSome = true := by
  refine ⟨?_, by simp [bonusCondEval]⟩
  unfold bonusCondEval
  rw [if_pos hm]
  unfold bonusModCheck
  rcases bf with n | n
  · have hcast : Int.ofNat n = (n : ℤ) := rfl
    rw [hcast]
    by_cases h0 : n = 0
    · subst h0
      simp
    · have hne : ((n : ℤ)) ≠ 0 := by omega
      rw [if_neg hne]
      by_cases h12 : n ≤ 12
      · have hd : Int.fdiv 12 ((n : ℤ)) = ((12 / n : ℕ) : ℤ) := rfl
        have h1 : 1 ≤ 12 / n := (Nat.one_le_div_iff (by omega)).mpr h12
        have hdne : Int.fdiv 12 ((n : ℤ)) ≠ 0 := by
          rw [hd]
          omega
        rw [if_neg hdne]
        simp only [Option.isSome_some, true_iff]
        refine ⟨hne, ?_⟩
        omega
      · have hd : Int.fdiv 12 ((n : ℤ)) = ((12 / n : ℕ) : ℤ) := rfl
        have hz : 12 / n = 0 := Nat.div_eq_of_lt (by omega)
        have hd0 : Int.fdiv 12 ((n : ℤ)) = 0 := by
          rw [hd, hz]
          rfl
        rw [if_pos hd0]
        simp only [Option.isSome_none, Bool.false_eq_true, false_iff, not_and]
        intro _
        omega
  · have hne : Int.negSucc n ≠ 0 := Int.negSucc_ne_zero n
    have hd : Int.fdiv 12 (Int.negSucc n) = Int.negSucc (11 / (n + 1)) := rfl
    rw [if_neg hne]
    simp only [hd]
    rw [if_neg (Int.negSucc_ne_zero _)]
    simp only [Option.isSome_some, true_iff]
    exact ⟨hne, le_of_lt (lt_of_lt_of_le (Int.negSucc_lt_zero n) (by decide))⟩

theorem c10_bonus_condition_totality_witness :
    (((bonusCondEval 3 5).isSome = true) ↔ ((5:ℤ) ≠ 0 ∧ (5:ℤ) ≤ 12))
    ∧ (bonusCondEval 0 5).isSome = true :=
  c10_bonus_condition_totality 5 3 (by decide)

/-- C5 (code behaviour, refuting the claim's "must not raise"): on an empty
ledger `get_account_balances` builds its result frame from an empty record
list; that frame has no `account` column, so `_get_current_state` raises
`KeyError` at `balances["account"]` instead of returning the all-zero
snapshot the claim describes. -/
theorem c5_empty_ledger_raises (sqrtO : ℚ → ℚ) (today : CalDate) :
    get_current_state sqrtO [] today = Except.error ("KeyError: account")
    ∧ (get_account_balances [] today).rows = []
    ∧ (get_account_balances [] today).has_columns = false :=
  ⟨rfl, rfl, rfl⟩
